import Mathlib

/-!
Shallow embedding of the plotting module src/visualize.py of the
CT-super-resolution-mdrbGAN repository, together with theorems settling the
frozen claims about it.

Modelling conventions:
- a 2-D image (numpy array of pixel intensities) is a list of rows of
  rationals; machine floats are idealised as exact rationals for the data and
  as real numbers for the logarithmic PSNR value;
- the IEEE-754 special values produced by numpy when dividing by a zero MSE
  (inf, -inf, NaN) are modelled explicitly by the RatVal / NumVal types, and
  the pipeline 10 * log10(range^2 / mse) is split into the three operations
  the source performs (division, log10, multiplication by 10);
- a figure is modelled as the data the source draws into it: grid shape,
  figsize, gridspec spacing parameters, and the per-cell contents (image,
  y-axis label string, attached PSNR value).  Purely graphical state that
  depends on the matplotlib rendering backend (autoscaled y limits, pixel
  output) is outside the embedded state;
- writing the output file is modelled by returning the path the source passes
  to plt.savefig; failures (missing attribute on the input object, index out
  of range) are modelled with Except following the order in which the Python
  code would raise them.
-/

/-- A 2-D grayscale image: a list of rows of rational pixel intensities. -/
abbrev Img : Type := List (List ℚ)

/-- Embedding of class ColorScheme (src/visualize.py lines 58-69): the named
hex colour constants used by every plot. -/
structure ColorScheme where
  coral : String
  yellow : String
  lilac : String
  cream : String
  creamT : String
  dark : String
  darkT : String

/-- The single colour scheme instance constructed by Visualizer. -/
def colorScheme : ColorScheme :=
  { coral := "#f56958"
  , yellow := "#f6e813"
  , lilac := "#a051a0"
  , cream := "#fef6e9"
  , creamT := "#fef6e959"
  , dark := "#1a1416"
  , darkT := "#1a1416bf" }

/-- numpy ndarray.max over the flattened element list (value for the empty
list is irrelevant: numpy raises there and no claim touches it). -/
def amax : List ℚ → ℚ
  | [] => 0
  | x :: xs => xs.foldl max x

/-- numpy ndarray.min over the flattened element list. -/
def amin : List ℚ → ℚ
  | [] => 0
  | x :: xs => xs.foldl min x

/-- Line 153: hr_range = hr_ct[idx].max() - hr_ct[idx].min(). -/
def hr_range (img : Img) : ℚ := amax img.flatten - amin img.flatten

/-- The elementwise squared difference array (sr - hr) ** 2, flattened. -/
def sqDiffs (a b : List ℚ) : List ℚ := List.zipWith (fun x y => (x - y) ^ 2) a b

/-- Line 154: mse = ((sr_ct[idx] - hr_ct[idx]) ** 2).mean(), i.e. the sum of
the squared-difference array divided by its element count. -/
def mseQ (sr hr : Img) : ℚ :=
  (sqDiffs sr.flatten hr.flatten).sum / ((sqDiffs sr.flatten hr.flatten).length : ℚ)

/-- Value of a float expression still in the rational range, or one of the
IEEE special values that numpy produces. -/
inductive RatVal where
  | fin (x : ℚ)
  | posInf
  | negInf
  | nan
deriving DecidableEq

/-- Value of a float expression after the logarithm: a real number or an
IEEE special value. -/
inductive NumVal where
  | fin (x : ℝ)
  | posInf
  | negInf
  | nan

/-- IEEE-754 division of two finite values as numpy performs it in
(hr_range ** 2) / mse: a zero denominator gives NaN for a zero numerator and
a signed infinity otherwise. -/
def ieeeDiv (num den : ℚ) : RatVal :=
  if den = 0 then
    if num = 0 then RatVal.nan
    else if 0 < num then RatVal.posInf
    else RatVal.negInf
  else RatVal.fin (num / den)

/-- np.log10 on the result of the division: log10 of a positive finite value
is finite, log10 of zero is -inf, log10 of a negative value is NaN, and
log10 of +inf is +inf. -/
noncomputable def log10V : RatVal → NumVal
  | RatVal.fin x =>
    if 0 < x then NumVal.fin (Real.logb 10 (x : ℝ))
    else if x = 0 then NumVal.negInf
    else NumVal.nan
  | RatVal.posInf => NumVal.posInf
  | RatVal.negInf => NumVal.nan
  | RatVal.nan => NumVal.nan

/-- Multiplication by the scalar 10, preserving the special values. -/
noncomputable def mul10 : NumVal → NumVal
  | NumVal.fin x => NumVal.fin (10 * x)
  | NumVal.posInf => NumVal.posInf
  | NumVal.negInf => NumVal.negInf
  | NumVal.nan => NumVal.nan

/-- Line 155: psnr = 10 * np.log10((hr_range ** 2) / mse). -/
noncomputable def psnrOf (r m : ℚ) : NumVal := mul10 (log10V (ieeeDiv (r ^ 2) m))

/-- The Python str.upper() used on every title: maps each character to its
uppercase form. -/
def pyUpper (s : String) : String := String.mk (s.data.map Char.toUpper)

/-- One plotting cell as filled by visualize_ct (lines 111-130): the drawn
image, the optional y-axis label (the uppercased title followed by the two
newlines of the format string), and the optional PSNR value attached as the
cell title (the source renders it as the string PSNR = value with two decimal
places; the value itself is embedded). -/
structure CtCell where
  image : Img
  ylabel : Option String
  psnr : Option NumVal

/-- Fallback cell for out-of-range grid accesses in statements. -/
def dummyCell : CtCell := { image := [], ylabel := none, psnr := none }

/-- Embedding of Visualizer.visualize_ct (lines 111-130). -/
def visualize_ct (img : Img) (title : Option String) (psnr : Option NumVal) : CtCell :=
  { image := img
  , ylabel := Option.map (fun t => pyUpper t ++ "\n\n") title
  , psnr := psnr }

/-- The per-column PSNR of lines 152-155, from the dynamic range of the
high-resolution image and the MSE between super- and high-resolution images. -/
noncomputable def colPsnr (sr hr : List Img) (idx : Nat) : NumVal :=
  psnrOf (hr_range (hr.getD idx [])) (mseQ (sr.getD idx []) (hr.getD idx []))

/-- The 3 times 8 cell grid filled by the loop of lines 144-159 (shared
verbatim by get_generated_ct_fig, lines 176-190): row 0 holds the low-res
images with the PSNR titles, rows 1 and 2 the super-res and high-res images;
only column 0 carries the row labels. -/
noncomputable def tripletCells (lr sr hr : List Img) : List (List CtCell) :=
  [ (List.range 8).map (fun idx =>
      visualize_ct (lr.getD idx []) (if idx = 0 then some "low-res" else none)
        (some (colPsnr sr hr idx)))
  , (List.range 8).map (fun idx =>
      visualize_ct (sr.getD idx []) (if idx = 0 then some "super-res" else none) none)
  , (List.range 8).map (fun idx =>
      visualize_ct (hr.getD idx []) (if idx = 0 then some "high-res" else none) none) ]

/-- The figure composed by visualize_generated_ct / get_generated_ct_fig:
grid shape, figsize, gridspec spacing and the cell grid. -/
structure TripletFig where
  rows : Nat
  cols : Nat
  figsize : ℚ × ℚ
  hspace : ℚ
  wspace : ℚ
  cells : List (List CtCell)

/-- The batched image argument passed to visualize_generated_ct and
get_generated_ct_fig.  The source calls .squeeze().numpy() on it (lines 140
and 172), so it is either a framework tensor, whose squeezed numpy conversion
is the carried batch of 2-D images, or a plain numpy array, which has a
squeeze method but no numpy method. -/
inductive CtInput where
  | tensor (batch : List Img)
  | ndarray (batch : List Img)

/-- Message of the AttributeError raised when .numpy() is called on a plain
numpy array. -/
def numpyAttrError : String := "AttributeError: numpy.ndarray object has no attribute numpy"

/-- The .squeeze().numpy() conversion of lines 140 and 172: succeeds on a
framework tensor, raises AttributeError on a plain numpy array. -/
def asNumpy : CtInput → Except String (List Img)
  | CtInput.tensor b => Except.ok b
  | CtInput.ndarray _ => Except.error numpyAttrError

/-- os.path.join for two components (POSIX semantics): an absolute second
component replaces the first; otherwise a separator is inserted unless the
first component is empty or already ends with one. -/
def pathJoin (a b : String) : String :=
  if b.startsWith "/" then b
  else if a = "" ∨ a.endsWith "/" then a ++ b
  else a ++ "/" ++ b

/-- Embedding of Visualizer.visualize_generated_ct (lines 132-162): converts
the three inputs (in evaluation order), lays out the 3 times 8 grid with
figsize (20, 6), hspace .05, wspace .25, and saves to
visualization_epoch_{epoch+1}.svg inside the plots directory.  The returned
pair is the composed figure and the path written; an AttributeError from the
conversion or an IndexError from a batch shorter than 8 propagates. -/
noncomputable def visualize_generated_ct (lr_ct sr_ct hr_ct : CtInput) (epoch : Int)
    (plots_dir : String) : Except String (TripletFig × String) :=
  match asNumpy lr_ct, asNumpy sr_ct, asNumpy hr_ct with
  | Except.ok lrB, Except.ok srB, Except.ok hrB =>
    if 8 ≤ lrB.length ∧ 8 ≤ srB.length ∧ 8 ≤ hrB.length then
      Except.ok
        ({ rows := 3, cols := 8, figsize := (20, 6), hspace := 5 / 100, wspace := 25 / 100,
           cells := tripletCells lrB srB hrB },
         pathJoin plots_dir ("visualization_epoch_" ++ toString (epoch + 1) ++ ".svg"))
    else Except.error "IndexError"
  | Except.error e, _, _ => Except.error e
  | _, Except.error e, _ => Except.error e
  | _, _, Except.error e => Except.error e

/-- Embedding of Visualizer.get_generated_ct_fig (lines 164-192): same
conversion and cell grid as visualize_generated_ct but with wspace .15, and
the figure is returned instead of being saved. -/
noncomputable def get_generated_ct_fig (lr_ct sr_ct hr_ct : CtInput) :
    Except String TripletFig :=
  match asNumpy lr_ct, asNumpy sr_ct, asNumpy hr_ct with
  | Except.ok lrB, Except.ok srB, Except.ok hrB =>
    if 8 ≤ lrB.length ∧ 8 ≤ srB.length ∧ 8 ≤ hrB.length then
      Except.ok
        { rows := 3, cols := 8, figsize := (20, 6), hspace := 5 / 100, wspace := 15 / 100,
          cells := tripletCells lrB srB hrB }
    else Except.error "IndexError"
  | Except.error e, _, _ => Except.error e
  | _, Except.error e, _ => Except.error e
  | _, _, Except.error e => Except.error e

/-- Cell of a triplet figure at row r, column c. -/
def figCell (fig : TripletFig) (r c : Nat) : CtCell :=
  (fig.cells.getD r []).getD c dummyCell

/-- Lines 209 and 242: np.linspace(0, n, 11).astype(int) with truncation
toward zero; since all values are nonnegative this is the floor i * n / 10
for i = 0, ..., 10. -/
def xTicks (n : Nat) : List Nat := (List.range 11).map (fun i => i * n / 10)

/-- The axis state produced by plot_loss / plot_psnr (lines 194-258): face
colour, the plotted series in draw order with their colours, the x limits,
x ticks and their labels, the title string, and the legend entries.  The y
ticks are derived from the autoscaled y limits of the rendering backend and
are outside the embedded state. -/
structure CurvePlot where
  facecolor : String
  plots : List (List ℚ × String)
  xlim : ℚ × ℚ
  xticks : List Nat
  xticklabels : List String
  title : String
  legend : List String

/-- Embedding of Visualizer.plot_loss (lines 194-225): validation series
drawn first (cream, translucent), training series second (coral); x limits
0 to len(train_loss); 11 truncated linspace ticks with decimal labels; title
PERCEPTUAL LOSS with a trailing newline; legend Validation, Train. -/
def plot_loss (train_loss val_loss : List ℚ) : CurvePlot :=
  { facecolor := colorScheme.darkT
  , plots := [(val_loss, colorScheme.creamT), (train_loss, colorScheme.coral)]
  , xlim := (0, (train_loss.length : ℚ))
  , xticks := xTicks train_loss.length
  , xticklabels := (xTicks train_loss.length).map (fun t => toString t)
  , title := "PERCEPTUAL LOSS\n"
  , legend := ["Validation", "Train"] }

/-- Embedding of Visualizer.plot_psnr (lines 227-258): identical to
plot_loss except for the title. -/
def plot_psnr (train_psnr val_psnr : List ℚ) : CurvePlot :=
  { facecolor := colorScheme.darkT
  , plots := [(val_psnr, colorScheme.creamT), (train_psnr, colorScheme.coral)]
  , xlim := (0, (train_psnr.length : ℚ))
  , xticks := xTicks train_psnr.length
  , xticklabels := (xTicks train_psnr.length).map (fun t => toString t)
  , title := "PSNR\n"
  , legend := ["Validation", "Train"] }

/-- The metrics dictionary consumed by visualize_performance, with the
p_loss and psnr series. -/
structure MetricsDict where
  p_loss : List ℚ
  psnr : List ℚ

/-- Embedding of Visualizer.visualize_performance (lines 260-273): a 1 by 2
panel of the loss and PSNR curves, saved to performance_epoch_{epoch+1}.svg
inside the plots directory. -/
def visualize_performance (train_dict val_dict : MetricsDict) (epoch : Int)
    (plots_dir : String) : (CurvePlot × CurvePlot) × String :=
  ((plot_loss train_dict.p_loss val_dict.p_loss,
    plot_psnr train_dict.psnr val_dict.psnr),
   pathJoin plots_dir ("performance_epoch_" ++ toString (epoch + 1) ++ ".svg"))

/-- The scores dictionary consumed by visualize_slice, with mse and psnr. -/
structure ScoresDict where
  mse : ℚ
  psnr : ℚ

/-- One full-slice cell as filled by visualize_slice (lines 275-297): the
image, its x-axis label (a newline followed by the uppercased name), and the
optional scores shown in the two-line cell title. -/
structure SliceCell where
  image : Img
  xlabel : String
  scores : Option ScoresDict

/-- Embedding of Visualizer.visualize_slice (lines 275-297). -/
def visualize_slice (ct_slice : Img) (ct_name : String)
    (scores_dict : Option ScoresDict) : SliceCell :=
  { image := ct_slice
  , xlabel := "\n" ++ pyUpper ct_name
  , scores := scores_dict }

/-- Embedding of Visualizer.visualize_full_slices (lines 299-316): a 1 by 3
panel of low-res, super-res and high-res slices with the scores only on the
super-res cell, saved to test_results_{ct_name}_{epoch}.svg inside the plots
directory. -/
def visualize_full_slices (lr_slice sr_slice hr_slice : Img) (scores_dict : ScoresDict)
    (ct_name : String) (epoch : Int) (plots_dir : String) : List SliceCell × String :=
  ([ visualize_slice lr_slice "low-res" none
   , visualize_slice sr_slice "super-res" (some scores_dict)
   , visualize_slice hr_slice "high-res" none ],
   pathJoin plots_dir ("test_results_" ++ ct_name ++ "_" ++ toString epoch ++ ".svg"))

/-- An image is non-constant when two of its pixels differ. -/
def Img.nonconstant (img : Img) : Prop := ∃ a ∈ img.flatten, ∃ b ∈ img.flatten, a ≠ b

instance (img : Img) : Decidable (Img.nonconstant img) := by
  unfold Img.nonconstant
  infer_instance

/-- Concrete non-constant demo image. -/
def demoImg : Img := [[0, 1]]

/-- Concrete batch of exactly 8 demo images. -/
def demoBatch : List Img := List.replicate 8 demoImg

/-- Concrete reference image with max 1 and min 0. -/
def demoHr : Img := [[0, 1, 1, 1]]

/-- Concrete compared image whose MSE against demoHr is 1/100. -/
def demoSr : Img := [[1 / 5, 1, 1, 1]]

/-- Concrete batch of 9 images. -/
def demoLong1 : List Img := List.replicate 8 demoImg ++ [[[2, 3]]]

/-- Concrete batch of 9 images agreeing with demoLong1 on the first 8 and
differing at index 8. -/
def demoLong2 : List Img := List.replicate 8 demoImg ++ [[[4, 5]]]

/-! Helper lemmas about the embedded operations. -/

lemma init_le_foldl_max (l : List ℚ) : ∀ a : ℚ, a ≤ l.foldl max a := by
  induction l with
  | nil => intro a; exact le_refl a
  | cons x xs ih => intro a; exact le_trans (le_max_left a x) (ih (max a x))

lemma mem_le_foldl_max (l : List ℚ) : ∀ (a x : ℚ), x ∈ l → x ≤ l.foldl max a := by
  induction l with
  | nil => intro a x hx; exact absurd hx (List.not_mem_nil x)
  | cons y ys ih =>
    intro a x hx
    rcases List.mem_cons.mp hx with h | h
    · subst h
      exact le_trans (le_max_right a x) (init_le_foldl_max ys (max a x))
    · exact ih (max a y) x h

lemma foldl_min_le_init (l : List ℚ) : ∀ a : ℚ, l.foldl min a ≤ a := by
  induction l with
  | nil => intro a; exact le_refl a
  | cons x xs ih => intro a; exact le_trans (ih (min a x)) (min_le_left a x)

lemma foldl_min_le_mem (l : List ℚ) : ∀ (a x : ℚ), x ∈ l → l.foldl min a ≤ x := by
  induction l with
  | nil => intro a x hx; exact absurd hx (List.not_mem_nil x)
  | cons y ys ih =>
    intro a x hx
    rcases List.mem_cons.mp hx with h | h
    · subst h
      exact le_trans (foldl_min_le_init ys (min a x)) (min_le_right a x)
    · exact ih (min a y) x h

lemma le_amax {x : ℚ} {l : List ℚ} (h : x ∈ l) : x ≤ amax l := by
  cases l with
  | nil => exact absurd h (List.not_mem_nil x)
  | cons y ys =>
    rcases List.mem_cons.mp h with h1 | h1
    · subst h1
      exact init_le_foldl_max ys x
    · exact mem_le_foldl_max ys y x h1

lemma amin_le {x : ℚ} {l : List ℚ} (h : x ∈ l) : amin l ≤ x := by
  cases l with
  | nil => exact absurd h (List.not_mem_nil x)
  | cons y ys =>
    rcases List.mem_cons.mp h with h1 | h1
    · subst h1
      exact foldl_min_le_init ys x
    · exact foldl_min_le_mem ys y x h1

lemma nonconstant_range_pos {img : Img} (h : Img.nonconstant img) : 0 < hr_range img := by
  obtain ⟨a, ha, b, hb, hab⟩ := h
  have h1 : a ≤ amax img.flatten := le_amax ha
  have h2 : amin img.flatten ≤ a := amin_le ha
  have h3 : b ≤ amax img.flatten := le_amax hb
  have h4 : amin img.flatten ≤ b := amin_le hb
  rcases lt_or_gt_of_ne hab with hlt | hgt
  · unfold hr_range; linarith
  · unfold hr_range; linarith

lemma sqDiffs_self_sum (l : List ℚ) : (sqDiffs l l).sum = 0 := by
  induction l with
  | nil => rfl
  | cons x xs ih =>
    unfold sqDiffs at ih ⊢
    rw [List.zipWith_cons_cons, List.sum_cons, ih]
    ring

lemma mseQ_self (a : Img) : mseQ a a = 0 := by
  unfold mseQ
  rw [sqDiffs_self_sum]
  simp

lemma psnrOf_zero_mse {r : ℚ} (hr : r ≠ 0) : psnrOf r 0 = NumVal.posInf := by
  have h2 : ¬r ^ 2 = 0 := pow_ne_zero 2 hr
  have h3 : 0 < r ^ 2 := lt_of_le_of_ne (sq_nonneg r) (Ne.symm h2)
  unfold psnrOf ieeeDiv
  simp [h2, h3, log10V, mul10]

lemma psnrOf_pos_mse {r m : ℚ} (hm : 0 < m) (hr : r ≠ 0) :
    psnrOf r m = NumVal.fin (10 * Real.logb 10 ((r : ℝ) ^ 2 / (m : ℝ))) := by
  have hm0 : m ≠ 0 := ne_of_gt hm
  have hpos : 0 < r ^ 2 / m := by positivity
  have hcast : ((r ^ 2 / m : ℚ) : ℝ) = (r : ℝ) ^ 2 / (m : ℝ) := by push_cast; ring
  unfold psnrOf ieeeDiv
  simp only [hm0, if_false, log10V, hpos, if_true, mul10, hcast]

lemma getD_map_range {α : Type} (n : Nat) (f : Nat → α) (d : α) {i : Nat} (h : i < n) :
    ((List.range n).map f).getD i d = f i := by
  rw [List.getD_eq_getD_get?, List.get?_eq_getElem?, List.getElem?_map,
    List.getElem?_range h]
  rfl

/-- Claim C3 (amended): plot_loss and plot_psnr set the x ticks to the 11
truncated linspace values floor(i * n / 10), i = 0..10, where n is the
training series length; there are always 11 of them spanning 0 to n
inclusive, and for n = 100 they are the evenly spaced 0, 10, ..., 100.  As
stated the claim fails: for lengths not divisible by 10 the truncated ticks
are not evenly spaced integers (see the counterexample). -/
theorem xticks_span_C3 :
    (∀ t v : List ℚ, (plot_loss t v).xticks = xTicks t.length ∧
      (plot_psnr t v).xticks = xTicks t.length) ∧
    (∀ n : Nat, (xTicks n).length = 11 ∧ (xTicks n).headD 0 = 0 ∧
      (xTicks n).getLastD 0 = n) ∧
    xTicks 100 = [0, 10, 20, 30, 40, 50, 60, 70, 80, 90, 100] := by
  have hrange : List.range 11 = [0, 1, 2, 3, 4, 5, 6, 7, 8, 9, 10] := by decide
  refine ⟨fun t v => ⟨rfl, rfl⟩, fun n => ⟨by simp [xTicks], ?_, ?_⟩, by decide⟩
  · simp [xTicks, hrange]
  · simp [xTicks, hrange]

/-- Claim C3 counterexample: for a training series of length 5 the x ticks
set by plot_loss are 0,0,1,1,2,2,3,3,4,4,5; the gap between the first two
ticks differs from the gap between the next two, so the 11 integer ticks are
not evenly spaced. -/
theorem xticks_counterexample_C3 :
    (plot_loss (List.replicate 5 (0 : ℚ)) []).xticks =
      [0, 0, 1, 1, 2, 2, 3, 3, 4, 4, 5] ∧
    ¬ ((plot_loss (List.replicate 5 (0 : ℚ)) []).xticks.getD 1 0 -
          (plot_loss (List.replicate 5 (0 : ℚ)) []).xticks.getD 0 0 =
        (plot_loss (List.replicate 5 (0 : ℚ)) []).xticks.getD 2 0 -
          (plot_loss (List.replicate 5 (0 : ℚ)) []).xticks.getD 1 0) := by
  decide

/-- Claim C8 (amended): plot_loss draws the validation series before the
training series (validation first in the plotted list, so the training line
is on top in z-order) and sets the legend to exactly Validation, Train in
that order; the axis title it sets is the uppercased string PERCEPTUAL LOSS
followed by a newline.  As stated the claim fails only in the title text,
which is not the mixed-case Perceptual Loss (see the counterexample). -/
theorem loss_curve_layout_C8 :
    ∀ t v : List ℚ,
      (plot_loss t v).plots = [(v, colorScheme.creamT), (t, colorScheme.coral)] ∧
      (plot_loss t v).legend = ["Validation", "Train"] ∧
      (plot_loss t v).title = "PERCEPTUAL LOSS\n" := by
  intro t v
  exact ⟨rfl, rfl, rfl⟩

/-- Claim C8 counterexample: the title string set by plot_loss is PERCEPTUAL
LOSS with a trailing newline, which differs from Perceptual Loss. -/
theorem loss_title_counterexample_C8 :
    (plot_loss [] []).title = "PERCEPTUAL LOSS\n" ∧
    (plot_loss [] []).title ≠ "Perceptual Loss" := by
  exact ⟨rfl, by decide⟩

/-- Claim C10: plot_loss on an empty training series does not fail (the
embedded operation is total), sets the x limits to (0, 0), and produces 11
ticks all equal to 0 together with 11 identical labels 0. -/
theorem empty_series_C10 :
    ∀ v : List ℚ,
      (plot_loss [] v).xlim = (0, 0) ∧
      (plot_loss [] v).xticks = List.replicate 11 0 ∧
      (plot_loss [] v).xticklabels = List.replicate 11 "0" := by
  intro v
  refine ⟨?_, ?_, ?_⟩
  · show ((0 : ℚ), ((List.length ([] : List ℚ)) : ℚ)) = ((0 : ℚ), (0 : ℚ))
    norm_num
  · show xTicks (List.length ([] : List ℚ)) = List.replicate 11 0
    decide
  · show (xTicks (List.length ([] : List ℚ))).map (fun t => toString t) =
      List.replicate 11 "0"
    decide

/-- Claim C6: for every epoch e, name s and plots directory, the path written
by visualize_generated_ct is visualization_epoch_{e+1}.svg, the one written
by visualize_performance is performance_epoch_{e+1}.svg, and the one written
by visualize_full_slices is test_results_{s}_{e}.svg with no shift, each
joined to the plots directory. -/
theorem output_paths_C6 :
    ∀ (e : Int) (d s : String) (lr sr hr : List Img) (td vd : MetricsDict)
      (lrS srS hrS : Img) (sc : ScoresDict),
      8 ≤ lr.length → 8 ≤ sr.length → 8 ≤ hr.length →
      (visualize_generated_ct (CtInput.tensor lr) (CtInput.tensor sr)
          (CtInput.tensor hr) e d).map Prod.snd =
        Except.ok (pathJoin d ("visualization_epoch_" ++ toString (e + 1) ++ ".svg")) ∧
      (visualize_performance td vd e d).2 =
        pathJoin d ("performance_epoch_" ++ toString (e + 1) ++ ".svg") ∧
      (visualize_full_slices lrS srS hrS sc s e d).2 =
        pathJoin d ("test_results_" ++ s ++ "_" ++ toString e ++ ".svg") := by
  intro e d s lr sr hr td vd lrS srS hrS sc h1 h2 h3
  have hc : 8 ≤ lr.length ∧ 8 ≤ sr.length ∧ 8 ≤ hr.length := ⟨h1, h2, h3⟩
  refine ⟨?_, rfl, rfl⟩
  simp only [visualize_generated_ct, asNumpy, if_pos hc, Except.map]

/-- Witness for claim C6 at epoch 4, name ct, plots directory plots and
batches of 8 demo images, whose hypotheses hold by evaluation. -/
theorem output_paths_C6_witness :
    (8 ≤ demoBatch.length) ∧
    ((visualize_generated_ct (CtInput.tensor demoBatch) (CtInput.tensor demoBatch)
        (CtInput.tensor demoBatch) 4 "plots").map Prod.snd =
      Except.ok (pathJoin "plots" ("visualization_epoch_" ++ toString ((4 : Int) + 1) ++ ".svg")) ∧
     (visualize_performance ⟨[], []⟩ ⟨[], []⟩ 4 "plots").2 =
      pathJoin "plots" ("performance_epoch_" ++ toString ((4 : Int) + 1) ++ ".svg") ∧
     (visualize_full_slices demoHr demoHr demoHr ⟨0, 0⟩ "ct" 4 "plots").2 =
      pathJoin "plots" ("test_results_" ++ "ct" ++ "_" ++ toString (4 : Int) ++ ".svg")) :=
  ⟨by decide,
   output_paths_C6 4 "plots" "ct" demoBatch demoBatch demoBatch ⟨[], []⟩ ⟨[], []⟩
     demoHr demoHr demoHr ⟨0, 0⟩ (by decide) (by decide) (by decide)⟩

/-- Claim C4 (amended): for every input triple, get_generated_ct_fig
composes a figure with the same grid shape, figsize, hspace and identical
cell contents and metric computation as visualize_generated_ct, and returns
it instead of writing a file; but the two layouts are not identical: the
gridspec wspace is 0.25 in visualize_generated_ct and 0.15 in
get_generated_ct_fig.  As stated (identical layout) the claim fails; see the
counterexample. -/
theorem fig_refinement_C4 :
    ∀ (lr sr hr : List Img) (e : Int) (d : String),
      8 ≤ lr.length → 8 ≤ sr.length → 8 ≤ hr.length →
      ((visualize_generated_ct (CtInput.tensor lr) (CtInput.tensor sr)
          (CtInput.tensor hr) e d).map
            (fun p => (p.1.rows, p.1.cols, p.1.figsize, p.1.hspace, p.1.cells)) =
        (get_generated_ct_fig (CtInput.tensor lr) (CtInput.tensor sr)
          (CtInput.tensor hr)).map
            (fun f => (f.rows, f.cols, f.figsize, f.hspace, f.cells))) ∧
      (visualize_generated_ct (CtInput.tensor lr) (CtInput.tensor sr)
          (CtInput.tensor hr) e d).map (fun p => p.1.wspace) =
        Except.ok (1 / 4 : ℚ) ∧
      (get_generated_ct_fig (CtInput.tensor lr) (CtInput.tensor sr)
          (CtInput.tensor hr)).map (fun f => f.wspace) =
        Except.ok (3 / 20 : ℚ) := by
  intro lr sr hr e d h1 h2 h3
  have hc : 8 ≤ lr.length ∧ 8 ≤ sr.length ∧ 8 ≤ hr.length := ⟨h1, h2, h3⟩
  refine ⟨?_, ?_, ?_⟩ <;>
    simp only [visualize_generated_ct, get_generated_ct_fig, asNumpy, if_pos hc,
      Except.map] <;>
    norm_num

/-- Claim C4 counterexample: on a concrete batch of 8 images the figure
composed by visualize_generated_ct has wspace 0.25 while the figure returned
by get_generated_ct_fig has wspace 0.15, so the composed layouts differ in
more than the returned-versus-written distinction. -/
theorem fig_wspace_counterexample_C4 :
    (visualize_generated_ct (CtInput.tensor demoBatch) (CtInput.tensor demoBatch)
        (CtInput.tensor demoBatch) 0 "plots").map (fun p => p.1.wspace) =
      Except.ok (1 / 4 : ℚ) ∧
    (get_generated_ct_fig (CtInput.tensor demoBatch) (CtInput.tensor demoBatch)
        (CtInput.tensor demoBatch)).map (fun f => f.wspace) =
      Except.ok (3 / 20 : ℚ) ∧
    (Except.ok (1 / 4 : ℚ) : Except String ℚ) ≠ Except.ok (3 / 20 : ℚ) := by
  refine ⟨?_, ?_, fun h => absurd (Except.ok.inj h) (by norm_num)⟩ <;>
    simp only [visualize_generated_ct, get_generated_ct_fig, asNumpy,
      if_pos (show 8 ≤ demoBatch.length ∧ 8 ≤ demoBatch.length ∧ 8 ≤ demoBatch.length by
        refine ⟨?_, ?_, ?_⟩ <;> decide), Except.map] <;>
    norm_num

/-- Witness for claim C4 at a concrete batch of 8 demo images. -/
theorem fig_refinement_C4_witness :
    (8 ≤ demoBatch.length) ∧
    (((visualize_generated_ct (CtInput.tensor demoBatch) (CtInput.tensor demoBatch)
        (CtInput.tensor demoBatch) 0 "plots").map
          (fun p => (p.1.rows, p.1.cols, p.1.figsize, p.1.hspace, p.1.cells)) =
      (get_generated_ct_fig (CtInput.tensor demoBatch) (CtInput.tensor demoBatch)
        (CtInput.tensor demoBatch)).map
          (fun f => (f.rows, f.cols, f.figsize, f.hspace, f.cells))) ∧
     (visualize_generated_ct (CtInput.tensor demoBatch) (CtInput.tensor demoBatch)
        (CtInput.tensor demoBatch) 0 "plots").map (fun p => p.1.wspace) =
       Except.ok (1 / 4 : ℚ) ∧
     (get_generated_ct_fig (CtInput.tensor demoBatch) (CtInput.tensor demoBatch)
        (CtInput.tensor demoBatch)).map (fun f => f.wspace) =
       Except.ok (3 / 20 : ℚ)) :=
  ⟨by decide,
   fig_refinement_C4 demoBatch demoBatch demoBatch 0 "plots"
     (by decide) (by decide) (by decide)⟩

/-- Claim C5 (amended): visualize_generated_ct and get_generated_ct_fig call
.squeeze().numpy() on their image inputs, so they require framework tensor
inputs; tensor inputs carrying at least 8 images complete without error,
while a plain numpy array input raises AttributeError (it has a squeeze
method but no numpy method) for both operations.  As stated (plain 2-D
numeric arrays accepted, conversion being the caller responsibility) the
claim fails on the code; see the counterexample. -/
theorem tensor_inputs_C5 :
    (∀ (lr sr hr : List Img) (e : Int) (d : String),
        8 ≤ lr.length → 8 ≤ sr.length → 8 ≤ hr.length →
        (∃ out, visualize_generated_ct (CtInput.tensor lr) (CtInput.tensor sr)
            (CtInput.tensor hr) e d = Except.ok out) ∧
        (∃ fig, get_generated_ct_fig (CtInput.tensor lr) (CtInput.tensor sr)
            (CtInput.tensor hr) = Except.ok fig)) ∧
    (∀ (b : List Img) (x y : CtInput) (e : Int) (d : String),
        visualize_generated_ct (CtInput.ndarray b) x y e d =
          Except.error numpyAttrError ∧
        get_generated_ct_fig (CtInput.ndarray b) x y =
          Except.error numpyAttrError) := by
  constructor
  · intro lr sr hr e d h1 h2 h3
    have hc : 8 ≤ lr.length ∧ 8 ≤ sr.length ∧ 8 ≤ hr.length := ⟨h1, h2, h3⟩
    constructor
    · exact ⟨({ rows := 3, cols := 8, figsize := (20, 6), hspace := 5 / 100,
                wspace := 25 / 100, cells := tripletCells lr sr hr },
              pathJoin d ("visualization_epoch_" ++ toString (e + 1) ++ ".svg")),
             by simp only [visualize_generated_ct, asNumpy, if_pos hc]⟩
    · exact ⟨{ rows := 3, cols := 8, figsize := (20, 6), hspace := 5 / 100,
               wspace := 15 / 100, cells := tripletCells lr sr hr },
             by simp only [get_generated_ct_fig, asNumpy, if_pos hc]⟩
  · intro b x y e d
    cases x <;> cases y <;> exact ⟨rfl, rfl⟩

/-- Claim C5 counterexample: on plain numpy array inputs both render
operations raise AttributeError instead of completing without error. -/
theorem plain_array_counterexample_C5 :
    visualize_generated_ct (CtInput.ndarray demoBatch) (CtInput.ndarray demoBatch)
        (CtInput.ndarray demoBatch) 0 "plots" = Except.error numpyAttrError ∧
    get_generated_ct_fig (CtInput.ndarray demoBatch) (CtInput.ndarray demoBatch)
        (CtInput.ndarray demoBatch) = Except.error numpyAttrError :=
  ⟨rfl, rfl⟩

/-- Witness for claim C5 at a concrete batch of 8 demo tensor images. -/
theorem tensor_inputs_C5_witness :
    (8 ≤ demoBatch.length) ∧
    ((∃ out, visualize_generated_ct (CtInput.tensor demoBatch) (CtInput.tensor demoBatch)
        (CtInput.tensor demoBatch) 0 "plots" = Except.ok out) ∧
     (∃ fig, get_generated_ct_fig (CtInput.tensor demoBatch) (CtInput.tensor demoBatch)
        (CtInput.tensor demoBatch) = Except.ok fig)) :=
  ⟨by decide,
   tensor_inputs_C5.1 demoBatch demoBatch demoBatch 0 "plots"
     (by decide) (by decide) (by decide)⟩

lemma tripletCells_row0 (lr sr hr : List Img) :
    (tripletCells lr sr hr).getD 0 [] = (List.range 8).map (fun idx =>
      visualize_ct (lr.getD idx []) (if idx = 0 then some "low-res" else none)
        (some (colPsnr sr hr idx))) := rfl

lemma tripletCells_row1 (lr sr hr : List Img) :
    (tripletCells lr sr hr).getD 1 [] = (List.range 8).map (fun idx =>
      visualize_ct (sr.getD idx []) (if idx = 0 then some "super-res" else none) none) :=
  rfl

lemma tripletCells_row2 (lr sr hr : List Img) :
    (tripletCells lr sr hr).getD 2 [] = (List.range 8).map (fun idx =>
      visualize_ct (hr.getD idx []) (if idx = 0 then some "high-res" else none) none) :=
  rfl

/-- Claim C1: for every column index idx of the grid composed by
visualize_generated_ct, the PSNR attached to that column is exactly
psnrOf (hr_range hr[idx]) (mseQ sr[idx] hr[idx]), the embedded
10 * log10(range^2 / mse) pipeline where range is the maximum minus the
minimum of the high-resolution image of the column and mse is the mean of
the squared pixel differences between the super- and high-resolution
images; whenever the MSE is positive and the range nonzero this value is
the real number 10 * log10(range^2 / mse); and for a reference image with
max 1 and min 0 (demoHr) and MSE 1/100 (against demoSr) the computed PSNR
equals 20. -/
theorem psnr_formula_C1 :
    (∀ (lr sr hr : List Img) (e : Int) (d : String) (idx : Nat),
        8 ≤ lr.length → 8 ≤ sr.length → 8 ≤ hr.length → idx < 8 →
        (visualize_generated_ct (CtInput.tensor lr) (CtInput.tensor sr)
            (CtInput.tensor hr) e d).map (fun p => (figCell p.1 0 idx).psnr) =
          Except.ok (some (psnrOf (hr_range (hr.getD idx []))
            (mseQ (sr.getD idx []) (hr.getD idx []))))) ∧
    (∀ r m : ℚ, 0 < m → r ≠ 0 →
        psnrOf r m = NumVal.fin (10 * Real.logb 10 ((r : ℝ) ^ 2 / (m : ℝ)))) ∧
    (hr_range demoHr = 1 ∧ mseQ demoSr demoHr = 1 / 100 ∧
      psnrOf 1 (1 / 100) = NumVal.fin 20) := by
  refine ⟨?_, fun r m hm hr => psnrOf_pos_mse hm hr, ?_, ?_, ?_⟩
  · intro lr sr hr e d idx h1 h2 h3 h4
    have hc : 8 ≤ lr.length ∧ 8 ≤ sr.length ∧ 8 ≤ hr.length := ⟨h1, h2, h3⟩
    simp only [visualize_generated_ct, asNumpy, if_pos hc, Except.map, figCell,
      tripletCells_row0]
    rw [getD_map_range 8 _ dummyCell h4]
    simp only [visualize_ct, colPsnr]
  · norm_num [hr_range, demoHr, amax, amin, List.flatten_cons, List.flatten_nil,
      List.foldl_cons, List.foldl_nil, max_def, min_def]
  · norm_num [mseQ, demoSr, demoHr, sqDiffs, List.flatten_cons, List.flatten_nil,
      List.zipWith_cons_cons, List.sum_cons, List.sum_nil]
  · have h1 : psnrOf 1 (1 / 100) =
        NumVal.fin (10 * Real.logb 10 (((1 : ℚ) : ℝ) ^ 2 / (((1 : ℚ) / 100 : ℚ) : ℝ))) :=
      psnrOf_pos_mse (by norm_num) (by norm_num)
    rw [h1]
    congr 1
    have h2 : ((1 : ℚ) : ℝ) ^ 2 / (((1 : ℚ) / 100 : ℚ) : ℝ) = (10 : ℝ) ^ (2 : ℕ) := by
      push_cast
      norm_num
    rw [h2, Real.logb_pow, Real.logb_self_eq_one (by norm_num)]
    norm_num

/-- Witness for claim C1: the demo batch at column 0, and the pair range 1,
MSE 1/100 for the finite-formula conjunct. -/
theorem psnr_formula_C1_witness :
    ((8 ≤ demoBatch.length ∧ (0 : Nat) < 8) ∧ ((0 : ℚ) < 1 / 100 ∧ (1 : ℚ) ≠ 0)) ∧
    ((visualize_generated_ct (CtInput.tensor demoBatch) (CtInput.tensor demoBatch)
        (CtInput.tensor demoBatch) 0 "plots").map (fun p => (figCell p.1 0 0).psnr) =
      Except.ok (some (psnrOf (hr_range (demoBatch.getD 0 []))
        (mseQ (demoBatch.getD 0 []) (demoBatch.getD 0 []))))) ∧
    psnrOf 1 (1 / 100) =
      NumVal.fin (10 * Real.logb 10 (((1 : ℚ) : ℝ) ^ 2 / (((1 : ℚ) / 100 : ℚ) : ℝ))) :=
  ⟨⟨⟨by decide, by decide⟩, by norm_num, by norm_num⟩,
   psnr_formula_C1.1 demoBatch demoBatch demoBatch 0 "plots" 0
     (by decide) (by decide) (by decide) (by decide),
   psnr_formula_C1.2.1 1 (1 / 100) (by norm_num) (by norm_num)⟩

/-- Claim C2: whenever the super-resolution image of a column equals the
high-resolution image of that column (so the MSE is 0) and the
high-resolution image is non-constant, the PSNR attached to that column by
visualize_generated_ct and by get_generated_ct_fig is positive infinity,
and both operations complete without raising an error, propagating the
non-finite value as-is. -/
theorem psnr_inf_C2 :
    ∀ (lr sr hr : List Img) (e : Int) (d : String) (idx : Nat),
      8 ≤ lr.length → 8 ≤ sr.length → 8 ≤ hr.length → idx < 8 →
      sr.getD idx [] = hr.getD idx [] → Img.nonconstant (hr.getD idx []) →
      (visualize_generated_ct (CtInput.tensor lr) (CtInput.tensor sr)
          (CtInput.tensor hr) e d).map (fun p => (figCell p.1 0 idx).psnr) =
        Except.ok (some NumVal.posInf) ∧
      (get_generated_ct_fig (CtInput.tensor lr) (CtInput.tensor sr)
          (CtInput.tensor hr)).map (fun f => (figCell f 0 idx).psnr) =
        Except.ok (some NumVal.posInf) := by
  intro lr sr hr e d idx h1 h2 h3 h4 heq hnc
  have hc : 8 ≤ lr.length ∧ 8 ≤ sr.length ∧ 8 ≤ hr.length := ⟨h1, h2, h3⟩
  have hpos : 0 < hr_range (hr.getD idx []) := nonconstant_range_pos hnc
  have hcol : colPsnr sr hr idx = NumVal.posInf := by
    unfold colPsnr
    rw [heq, mseQ_self]
    exact psnrOf_zero_mse (ne_of_gt hpos)
  constructor
  · simp only [visualize_generated_ct, asNumpy, if_pos hc, Except.map, figCell,
      tripletCells_row0]
    rw [getD_map_range 8 _ dummyCell h4]
    simp only [visualize_ct, hcol]
  · simp only [get_generated_ct_fig, asNumpy, if_pos hc, Except.map, figCell,
      tripletCells_row0]
    rw [getD_map_range 8 _ dummyCell h4]
    simp only [visualize_ct, hcol]

/-- Witness for claim C2: identical demo batches (so MSE is 0 in every
column) of non-constant images, at column 0. -/
theorem psnr_inf_C2_witness :
    (8 ≤ demoBatch.length ∧ (0 : Nat) < 8 ∧
      demoBatch.getD 0 [] = demoBatch.getD 0 [] ∧
      Img.nonconstant (demoBatch.getD 0 [])) ∧
    ((visualize_generated_ct (CtInput.tensor demoBatch) (CtInput.tensor demoBatch)
        (CtInput.tensor demoBatch) 0 "plots").map (fun p => (figCell p.1 0 0).psnr) =
      Except.ok (some NumVal.posInf) ∧
     (get_generated_ct_fig (CtInput.tensor demoBatch) (CtInput.tensor demoBatch)
        (CtInput.tensor demoBatch)).map (fun f => (figCell f 0 0).psnr) =
      Except.ok (some NumVal.posInf)) :=
  ⟨⟨by decide, by decide, rfl, by decide⟩,
   psnr_inf_C2 demoBatch demoBatch demoBatch 0 "plots" 0
     (by decide) (by decide) (by decide) (by decide) rfl (by decide)⟩

lemma getD_take_eq {α : Type} {l₁ l₂ : List α} {n : Nat} (d : α)
    (h : l₁.take n = l₂.take n) {i : Nat} (hi : i < n) :
    l₁.getD i d = l₂.getD i d := by
  rw [List.getD_eq_getD_get?, List.getD_eq_getD_get?, List.get?_eq_getElem?,
    List.get?_eq_getElem?, ← List.getElem?_take_of_lt (l := l₁) hi,
    ← List.getElem?_take_of_lt (l := l₂) hi, h]

lemma tripletCells_congr {lr₁ sr₁ hr₁ lr₂ sr₂ hr₂ : List Img}
    (hl : lr₁.take 8 = lr₂.take 8) (hs : sr₁.take 8 = sr₂.take 8)
    (hh : hr₁.take 8 = hr₂.take 8) :
    tripletCells lr₁ sr₁ hr₁ = tripletCells lr₂ sr₂ hr₂ := by
  have h0 : ∀ idx ∈ List.range 8,
      visualize_ct (lr₁.getD idx []) (if idx = 0 then some "low-res" else none)
        (some (colPsnr sr₁ hr₁ idx)) =
      visualize_ct (lr₂.getD idx []) (if idx = 0 then some "low-res" else none)
        (some (colPsnr sr₂ hr₂ idx)) := by
    intro idx hidx
    have hi : idx < 8 := List.mem_range.mp hidx
    unfold colPsnr
    rw [getD_take_eq [] hl hi, getD_take_eq [] hs hi, getD_take_eq [] hh hi]
  have h1 : ∀ idx ∈ List.range 8,
      visualize_ct (sr₁.getD idx []) (if idx = 0 then some "super-res" else none) none =
      visualize_ct (sr₂.getD idx []) (if idx = 0 then some "super-res" else none) none := by
    intro idx hidx
    have hi : idx < 8 := List.mem_range.mp hidx
    rw [getD_take_eq [] hs hi]
  have h2 : ∀ idx ∈ List.range 8,
      visualize_ct (hr₁.getD idx []) (if idx = 0 then some "high-res" else none) none =
      visualize_ct (hr₂.getD idx []) (if idx = 0 then some "high-res" else none) none := by
    intro idx hidx
    have hi : idx < 8 := List.mem_range.mp hidx
    rw [getD_take_eq [] hh hi]
  unfold tripletCells
  rw [List.map_congr_left h0, List.map_congr_left h1, List.map_congr_left h2]

/-- Claim C7: with three batches of exactly 8 images, visualize_generated_ct
lays out a 3-row by 8-column grid whose rows are, in order, the low-res,
super-res and high-res images of each column; the PSNR of each column is
attached only to the top-row cell of that column; and only the first column
of each row carries the row label, the uppercased strings LOW-RES, SUPER-RES
and HIGH-RES (each followed by the two newlines of the label format string),
while all other columns carry no label. -/
theorem grid_layout_C7 :
    ∀ (lr sr hr : List Img) (e : Int) (d : String) (idx : Nat),
      lr.length = 8 → sr.length = 8 → hr.length = 8 → idx < 8 →
      (visualize_generated_ct (CtInput.tensor lr) (CtInput.tensor sr)
          (CtInput.tensor hr) e d).map
          (fun p => (p.1.rows, p.1.cols, figCell p.1 0 idx, figCell p.1 1 idx,
            figCell p.1 2 idx)) =
        Except.ok (3, 8,
          { image := lr.getD idx []
          , ylabel := if idx = 0 then some "LOW-RES\n\n" else none
          , psnr := some (colPsnr sr hr idx) },
          { image := sr.getD idx []
          , ylabel := if idx = 0 then some "SUPER-RES\n\n" else none
          , psnr := none },
          { image := hr.getD idx []
          , ylabel := if idx = 0 then some "HIGH-RES\n\n" else none
          , psnr := none }) := by
  intro lr sr hr e d idx h1 h2 h3 h4
  have hc : 8 ≤ lr.length ∧ 8 ≤ sr.length ∧ 8 ≤ hr.length := by
    refine ⟨?_, ?_, ?_⟩ <;> omega
  simp only [visualize_generated_ct, asNumpy, if_pos hc, Except.map, figCell,
    tripletCells_row0, tripletCells_row1, tripletCells_row2]
  rw [getD_map_range 8 _ dummyCell h4, getD_map_range 8 _ dummyCell h4,
    getD_map_range 8 _ dummyCell h4]
  by_cases hidx : idx = 0 <;> simp [hidx, visualize_ct] <;> decide

/-- Witness for claim C7 at the demo batch of 8 images, column 0. -/
theorem grid_layout_C7_witness :
    (demoBatch.length = 8 ∧ (0 : Nat) < 8) ∧
    (visualize_generated_ct (CtInput.tensor demoBatch) (CtInput.tensor demoBatch)
        (CtInput.tensor demoBatch) 0 "plots").map
        (fun p => (p.1.rows, p.1.cols, figCell p.1 0 0, figCell p.1 1 0,
          figCell p.1 2 0)) =
      Except.ok (3, 8,
        { image := demoBatch.getD 0 []
        , ylabel := if (0 : Nat) = 0 then some "LOW-RES\n\n" else none
        , psnr := some (colPsnr demoBatch demoBatch 0) },
        { image := demoBatch.getD 0 []
        , ylabel := if (0 : Nat) = 0 then some "SUPER-RES\n\n" else none
        , psnr := none },
        { image := demoBatch.getD 0 []
        , ylabel := if (0 : Nat) = 0 then some "HIGH-RES\n\n" else none
        , psnr := none }) :=
  ⟨⟨by decide, by decide⟩,
   grid_layout_C7 demoBatch demoBatch demoBatch 0 "plots" 0
     (by decide) (by decide) (by decide) (by decide)⟩

/-- Claim C9: when the input batches are longer than 8 images, the output of
visualize_generated_ct depends only on the first 8 images of each batch: two
calls whose inputs agree on indices 0 through 7 produce identical results,
the extra images being silently ignored. -/
theorem ignores_extra_images_C9 :
    ∀ (lr₁ sr₁ hr₁ lr₂ sr₂ hr₂ : List Img) (e : Int) (d : String),
      8 < lr₁.length → 8 < sr₁.length → 8 < hr₁.length →
      8 < lr₂.length → 8 < sr₂.length → 8 < hr₂.length →
      lr₁.take 8 = lr₂.take 8 → sr₁.take 8 = sr₂.take 8 →
      hr₁.take 8 = hr₂.take 8 →
      visualize_generated_ct (CtInput.tensor lr₁) (CtInput.tensor sr₁)
          (CtInput.tensor hr₁) e d =
        visualize_generated_ct (CtInput.tensor lr₂) (CtInput.tensor sr₂)
          (CtInput.tensor hr₂) e d := by
  intro lr₁ sr₁ hr₁ lr₂ sr₂ hr₂ e d ha hb hc hd he hf hl hs hh
  have hc1 : 8 ≤ lr₁.length ∧ 8 ≤ sr₁.length ∧ 8 ≤ hr₁.length := by
    refine ⟨?_, ?_, ?_⟩ <;> omega
  have hc2 : 8 ≤ lr₂.length ∧ 8 ≤ sr₂.length ∧ 8 ≤ hr₂.length := by
    refine ⟨?_, ?_, ?_⟩ <;> omega
  simp only [visualize_generated_ct, asNumpy, if_pos hc1, if_pos hc2]
  rw [tripletCells_congr hl hs hh]

/-- Witness for claim C9: two batches of 9 images agreeing on the first 8
and differing at index 8 give identical outputs. -/
theorem ignores_extra_images_C9_witness :
    (8 < demoLong1.length ∧ 8 < demoLong2.length ∧
      demoLong1.take 8 = demoLong2.take 8 ∧ demoLong1 ≠ demoLong2) ∧
    visualize_generated_ct (CtInput.tensor demoLong1) (CtInput.tensor demoLong1)
        (CtInput.tensor demoLong1) 0 "plots" =
      visualize_generated_ct (CtInput.tensor demoLong2) (CtInput.tensor demoLong2)
        (CtInput.tensor demoLong2) 0 "plots" :=
  ⟨⟨by decide, by decide, by decide, by decide⟩,
   ignores_extra_images_C9 demoLong1 demoLong1 demoLong1 demoLong2 demoLong2 demoLong2
     0 "plots" (by decide) (by decide) (by decide) (by decide) (by decide) (by decide)
     (by decide) (by decide) (by decide)⟩
